import Mathlib

/-!
# Shallow embedding of `aiosmtpd/smtp.py` (SMTP session engine)

This file embeds the per-connection SMTP session engine of
`src/aiosmtpd/smtp.py` as executable Lean definitions and proves the
specification claims about it.

Modelling conventions:
* Python `bytes` values are `List Nat` (each entry one byte value).
* Python `str` values are Lean `String`; values that are dynamically either
  `str` or `bytes` (e.g. `seen_greeting`, `received_data`) are a sum type.
* Functions from the Python standard library that the engine calls
  (`str(b, encoding=...)` decoding, `email._header_value_parser.get_angle_addr`
  / `get_addr_spec`) are external collaborators: they are passed in as an
  explicit `Ext` record of functions, so theorems quantify over their
  behaviour and witnesses instantiate them concretely.
* The asynchronous reply writes (`push`) are modelled by accumulating the
  replies of one command into a list, in order.
* String predicates of Python (`str.isdigit`, `str.isalnum`, `str.upper`)
  are modelled on their ASCII fragment, which is the fragment exercised by
  SMTP command arguments in the claims.
-/

namespace Aiosmtpd

/-- Python `bytes`: a list of byte values. -/
abbrev Bytes := List Nat

/-- A Python value that is dynamically either `str` or `bytes`
(`seen_greeting`, `received_data` can hold both in the source). -/
abbrev StrOrBytes := String ⊕ Bytes

/-- Byte is an ASCII CR or LF (the characters of Python `b'\r\n'`,
the strip set of `line.rstrip(b'\r\n')`). -/
def isCrLfByte (b : Nat) : Bool := b == 13 || b == 10

/-- Python `line.rstrip(b'\r\n')`: drop all trailing CR/LF bytes. -/
def rstripCrLf (l : Bytes) : Bytes := (l.reverse.dropWhile isCrLfByte).reverse

/-- Python `line.endswith(b'\r\n')`. -/
def endsWithCRLF (l : Bytes) : Bool := match l.reverse with
  | 10 :: 13 :: _ => true
  | _ => false

/-- Byte is ASCII whitespace (the default strip set of Python `bytes.strip()`:
space, tab, LF, VT, FF, CR). -/
def isSpaceByte (b : Nat) : Bool :=
  b == 32 || b == 9 || b == 10 || b == 11 || b == 12 || b == 13

/-- Python `bytes.strip()` with no argument. -/
def bstrip (l : Bytes) : Bytes :=
  ((l.dropWhile isSpaceByte).reverse.dropWhile isSpaceByte).reverse

/-- Python `bytes.upper()`: uppercase the ASCII letters, byte-wise. -/
def upperByte (b : Nat) : Nat := if 97 ≤ b && b ≤ 122 then b - 32 else b

/-- Python `bytes.upper()` over a whole byte string. -/
def bytesUpper (l : Bytes) : Bytes := l.map upperByte

/-- Python `str(b, encoding='ascii')`: succeeds iff every byte is < 128,
otherwise raises `UnicodeDecodeError` (modelled as `none`). -/
def decodeAscii (l : Bytes) : Option String :=
  if l.all (fun b => b < 128) then some (String.mk (l.map Char.ofNat)) else none

/-- Encode an ASCII Lean string as bytes (used for the literal byte strings of
the source such as `b'502 Could not VRFY '`). -/
def asciiBytes (s : String) : Bytes := s.toList.map Char.toNat

/-- Python `str.upper()` on the ASCII fragment. -/
def strUpper (s : String) : String := String.mk (s.toList.map Char.toUpper)

/-- Helper for `splitWS`: walk the characters, accumulating the current
token in reverse. -/
def splitWSAux : List Char → List Char → List String
  | [], cur => if cur = [] then [] else [String.mk cur.reverse]
  | c :: cs, cur =>
    if c.isWhitespace then
      if cur = [] then splitWSAux cs []
      else String.mk cur.reverse :: splitWSAux cs []
    else splitWSAux cs (c :: cur)

/-- Python `str.split()` with no argument: split on whitespace runs,
discarding empty tokens. -/
def splitWS (s : String) : List String := splitWSAux s.toList []

/-- Python `str.strip()` on a command argument string. -/
def strStrip (s : String) : String :=
  String.mk (((s.toList.dropWhile Char.isWhitespace).reverse.dropWhile
    Char.isWhitespace).reverse)

/-- Python `str.lstrip()`. -/
def strLstrip (s : String) : String :=
  String.mk (s.toList.dropWhile Char.isWhitespace)

/-- Python `str.isdigit()` on the ASCII fragment: non-empty and all ASCII
digits.  (Python also accepts non-ASCII digit code points, for which a later
`int(...)` may then fail; the claims only exercise ASCII arguments.) -/
def isdigits (s : String) : Bool :=
  s ≠ "" && s.toList.all (fun c => 48 ≤ c.toNat && c.toNat ≤ 57)

/-- Python `int(s)` for a string of ASCII digits. -/
def natOfDigits (s : String) : Nat :=
  s.toList.foldl (fun n c => 10 * n + (c.toNat - 48)) 0

/-- Python `str.isalnum()` on the ASCII fragment. -/
def isalnumStr (s : String) : Bool :=
  s ≠ "" && s.toList.all (fun c => c.isAlphanum)

/-- Truthiness of a Python value that is `None` or a `str`
(`if self.mailfrom:`). -/
def strTruthy : Option String → Bool
  | none => false
  | some s => s ≠ ""

/-- Truthiness of a `str`-or-`bytes` value (`if self.seen_greeting:`). -/
def sbTruthy : StrOrBytes → Bool
  | .inl s => s ≠ ""
  | .inr b => b ≠ []

/-- Truthiness of a command argument, which is `None` or `bytes`
(`if arg:` in the command handlers). -/
def argTruthy : Option Bytes → Bool
  | none => false
  | some b => b ≠ []

/-- The class attribute `command_size_limit = 512`. -/
def commandSizeLimit : Nat := 512

/-- The per-verb limits `command_size_limits`: a `defaultdict` whose default
factory returns `command_size_limit` (512).  Modelled as an association
list; lookup of an absent key yields the default. -/
def lookupLimit (l : List (String × Nat)) (k : String) : Nat :=
  match l.find? (fun p => p.1 == k) with
  | some p => p.2
  | none => commandSizeLimit

/-- Store a value into the `command_size_limits` mapping. -/
def storeLimit (l : List (String × Nat)) (k : String) (v : Nat) :
    List (String × Nat) :=
  (l.filter (fun p => p.1 ≠ k)) ++ [(k, v)]

/-- Session construction options (fixed per session, from `__init__`). -/
structure Config where
  hostname : String
  data_size_limit : Nat
  enable_SMTPUTF8 : Bool
  decode_data : Bool
  deriving DecidableEq

/-- The `__init__` constraint: `decode_data` and `enable_SMTPUTF8` cannot both
be true (`ValueError`), and when `enable_SMTPUTF8` is set the constructor
forces `decode_data = False`. -/
def Config.valid (c : Config) : Prop :=
  c.enable_SMTPUTF8 = true → c.decode_data = false

/-- The mutable session state of one `SMTP` protocol instance. -/
structure State where
  seen_greeting : StrOrBytes
  extended_smtp : Bool
  mailfrom : Option String
  rcpttos : List String
  require_SMTPUTF8 : Bool
  received_data : StrOrBytes
  received_lines : List Bytes
  mail_options : List String
  rcpt_options : List String
  command_size_limits : List (String × Nat)
  num_bytes : Nat
  deriving DecidableEq

/-- Python `_set_post_data_state`: reset state variables to their post-DATA state. -/
def setPostDataState (st : State) : State :=
  { st with mailfrom := none, rcpttos := [], require_SMTPUTF8 := false }

/-- Python `_set_rset_state`: reset all state variables except the greeting. -/
def setRsetState (st : State) : State :=
  { setPostDataState st with received_data := .inl "", received_lines := [] }

/-- The session state as `__init__` leaves it (`_set_rset_state`, empty
greeting, `extended_smtp = False`, `command_size_limits.clear()`).
`mail_options`, `rcpt_options` and `num_bytes` are only created later by
MAIL/RCPT/DATA; they are given their empty defaults here. -/
def initState : State :=
  { seen_greeting := .inl ""
    extended_smtp := false
    mailfrom := none
    rcpttos := []
    require_SMTPUTF8 := false
    received_data := .inl ""
    received_lines := []
    mail_options := []
    rcpt_options := []
    command_size_limits := []
    num_bytes := 0 }

/-- A reply pushed to the client: almost always a `str`, except that
`smtp_VRFY` can push raw `bytes`; `exc` stands for the `'500 Error: %s' % e`
reply produced by the main loop's exception handler, whose text is the
CPython exception message. -/
inductive Reply where
  | str (s : String)
  | bytes (b : Bytes)
  | exc
  deriving DecidableEq

/-- The verbs for which a `smtp_<VERB>` method exists
(`getattr(self, 'smtp_' + command)`). -/
def smtpVerbs : List String :=
  ["HELO", "EHLO", "NOOP", "QUIT", "HELP", "VRFY", "MAIL", "RCPT", "RSET",
   "DATA", "EXPN"]

/-- Result of the per-line front end of `_handle_client` (reading one line,
stripping, tokenizing, the size check and method lookup), before a verb
method runs. -/
inductive LineOutcome where
  /-- The line did not end with CRLF: `IncompleteReadError`, loop breaks. -/
  | incompleteRead
  /-- Empty line after stripping: `500 Error: bad syntax`. -/
  | badSyntax
  /-- The verb bytes did not decode as ASCII: `str(..., encoding='ascii')`
  raised `UnicodeDecodeError`, caught by the outer handler which replies
  `'500 Error: %s' % e` (the generic exception reply). -/
  | decodeError
  /-- Python `len(line) > max_sz`: `500 Error: line too long`. -/
  | tooLong
  /-- No `smtp_<VERB>` method: `500 Error: command "<VERB>" not recognized`. -/
  | notRecognized (verb : String)
  /-- Dispatch `smtp_<verb>(arg)`. -/
  | dispatch (verb : String) (arg : Option Bytes)
  deriving DecidableEq

/-- The single reply produced by a non-dispatch line outcome, when its text
is determined by the engine (the `decodeError` reply text comes from the
CPython exception and is modelled as `Reply.exc`). -/
def LineOutcome.reply : LineOutcome → Option String
  | .badSyntax => some "500 Error: bad syntax"
  | .tooLong => some "500 Error: line too long"
  | .notRecognized v => some ("500 Error: command \"" ++ v ++ "\" not recognized")
  | _ => none

/-- Split a stripped command line at the first space:
`i = line.find(b' ')`; verb bytes and the (stripped) argument bytes. -/
def verbArgSplit (line : Bytes) : Bytes × Option Bytes :=
  match line.findIdx? (fun b => b == 32) with
  | none => (line, none)
  | some i => (line.take i, some (bstrip (line.drop (i + 1))))

/-- The applicable command size limit:
`command_size_limits[command] if extended_smtp else command_size_limit`. -/
def maxSizeFor (st : State) (command : String) : Nat :=
  if st.extended_smtp then lookupLimit st.command_size_limits command
  else commandSizeLimit

/-- The front end of one main-loop iteration of `_handle_client` on a raw
line from the reader: CRLF check, `rstrip(b'\r\n')`, empty-line check,
tokenization, ASCII decode of the verb, the size check and method lookup. -/
def processLine (st : State) (line : Bytes) : LineOutcome :=
  if endsWithCRLF line = false then .incompleteRead
  else
    let l := rstripCrLf line
    if l = [] then .badSyntax
    else
      match decodeAscii (bytesUpper (verbArgSplit l).1) with
      | none => .decodeError
      | some command =>
        if l.length > maxSizeFor st command then .tooLong
        else if smtpVerbs.contains command then .dispatch command (verbArgSplit l).2
        else .notRecognized command

/-- External Python standard-library collaborators, passed in explicitly:
the two text decoders used by `_decode_arg` (`str(b, encoding='utf-8')` and
`str(b, encoding=self.default_8bit_encoding)`, `none` = `UnicodeDecodeError`)
and the two address parsers of `email._header_value_parser` used by
`_getaddr`.  The parsers return the parsed mailbox's `addr_spec` together
with the unparsed remainder, or `Except.error` for `HeaderParseError`. -/
structure Ext where
  decodeUtf8 : Bytes → Option String
  decode8bit : Bytes → Option String
  getAngleAddr : String → Except Unit (String × String)
  getAddrSpec : String → Except Unit (String × String)

/-- Python `_decode_arg`: try UTF-8, then the configured 8-bit encoding, else keep
the raw bytes. -/
def decodeArg (ext : Ext) (b : Bytes) : StrOrBytes :=
  match ext.decodeUtf8 b with
  | some s => .inl s
  | none =>
    match ext.decode8bit b with
    | some s => .inl s
    | none => .inr b

/-- Python `_strip_command_keyword`: if the first `len(keyword)` characters,
uppercased, equal the keyword, return the rest stripped; else `''`. -/
def stripCommandKeyword (keyword : String) (arg : String) : String :=
  let keylen := keyword.length
  if strUpper (String.mk (arg.toList.take keylen)) = keyword then
    strStrip (String.mk (arg.toList.drop keylen))
  else ""

/-- Python `_getaddr`: empty input gives `('', '')`; an input whose stripped form
starts with `<` is parsed as an angle-addr, otherwise as an addr-spec.
(`if not address: return address, rest` is subsumed: the external parser
already returns the `addr_spec` string, possibly empty.) -/
def getaddr (ext : Ext) (arg : String) : Except Unit (String × String) :=
  if arg = "" then .ok ("", "")
  else if (strLstrip arg).toList.head? = some '<' then ext.getAngleAddr arg
  else ext.getAddrSpec arg

/-- An ESMTP parameter value: `NAME` alone maps to Python `True` (`flag`),
`NAME=VALUE` maps to the value string. -/
inductive ParamVal where
  | flag
  | val (s : String)
  deriving DecidableEq

/-- Whether an optional parameter value is present in `NAME=VALUE` form
(the Python test `(smtputf8 is not True) and (smtputf8 is not False)` on a
popped parameter). -/
def isValParam : Option ParamVal → Bool
  | some (.val _) => true
  | _ => false

/-- The parameter dictionary built by `_getparams`. -/
abbrev ParamDict := List (String × ParamVal)

/-- Python `dict` lookup. -/
def dictGet (d : ParamDict) (k : String) : Option ParamVal :=
  (d.find? (fun p => p.1 == k)).map (fun p => p.2)

/-- Python `dict.pop(k, default)`'s removal effect. -/
def dictErase (d : ParamDict) (k : String) : ParamDict :=
  d.filter (fun p => p.1 ≠ k)

/-- Python `result[param] = value` (overwrite; the iteration order of the
dictionary is never observed by the engine, so re-insertion at the end is an
adequate model). -/
def dictInsert (d : ParamDict) (k : String) (v : ParamVal) : ParamDict :=
  dictErase d k ++ [(k, v)]

/-- Python `s.partition('=')`: text before the first `=`, whether a `=` was
found, text after it. -/
def partitionEq (s : String) : String × Bool × String :=
  match s.toList.findIdx? (fun c => c == '=') with
  | none => (s, false, "")
  | some i => (String.mk (s.toList.take i), true, String.mk (s.toList.drop (i + 1)))

/-- Python `_getparams`: each token is `NAME` (value `True`) or `NAME=VALUE`;
`NAME` must be alphanumeric and `NAME=` with empty value is invalid;
returns `None` on any invalid token. -/
def getparams (tokens : List String) : Option ParamDict :=
  tokens.foldl
    (fun acc tok =>
      match acc with
      | none => none
      | some d =>
        let (p, eq, v) := partitionEq tok
        if isalnumStr p = false || (eq && v = "") then none
        else some (dictInsert d p (if eq then .val v else .flag)))
    (some [])

/-- Python `smtp_HELO`. -/
def smtp_HELO (cfg : Config) (st : State) (arg : Option Bytes) :
    List Reply × State :=
  if argTruthy arg = false then ([.str "501 Syntax: HELO hostname"], st)
  else if sbTruthy st.seen_greeting then ([.str "503 Duplicate HELO/EHLO"], st)
  else
    let hb := arg.getD []
    let hn : StrOrBytes := match decodeAscii hb with
      | some s => .inl s
      | none => .inr hb
    ([.str ("250 " ++ cfg.hostname)],
     { setRsetState st with seen_greeting := hn })

/-- Python `smtp_EHLO`: duplicate-greeting and empty-argument checks, envelope
reset, greeting recording, `extended_smtp := True`, then the capability
block, growing `command_size_limits['MAIL']` for SIZE (+26) and
SMTPUTF8 (+10).  (`ehlo_hook` of the base class pushes nothing.) -/
def smtp_EHLO (cfg : Config) (st : State) (arg : Option Bytes) :
    List Reply × State :=
  if argTruthy arg = false then ([.str "501 Syntax: EHLO hostname"], st)
  else if sbTruthy st.seen_greeting then ([.str "503 Duplicate HELO/EHLO"], st)
  else
    let hb := arg.getD []
    let hn : StrOrBytes := match decodeAscii hb with
      | some s => .inl s
      | none => .inr hb
    let st := { setRsetState st with seen_greeting := hn, extended_smtp := true }
    let r0 := [Reply.str ("250-" ++ cfg.hostname)]
    let (r1, st) :=
      if cfg.data_size_limit ≠ 0 then
        (r0 ++ [Reply.str ("250-SIZE " ++ toString cfg.data_size_limit)],
         { st with command_size_limits :=
             (storeLimit st.command_size_limits "MAIL"
               (lookupLimit st.command_size_limits "MAIL" + 26)) })
      else (r0, st)
    let r2 := if cfg.decode_data = false then r1 ++ [Reply.str "250-8BITMIME"] else r1
    let (r3, st) :=
      if cfg.enable_SMTPUTF8 then
        (r2 ++ [Reply.str "250-SMTPUTF8"],
         { st with command_size_limits :=
             (storeLimit st.command_size_limits "MAIL"
               (lookupLimit st.command_size_limits "MAIL" + 10)) })
      else (r2, st)
    (r3 ++ [Reply.str "250 HELP"], st)

/-- Python `smtp_NOOP`. -/
def smtp_NOOP (st : State) (arg : Option Bytes) : List Reply × State :=
  if argTruthy arg then ([.str "501 Syntax: NOOP"], st)
  else ([.str "250 OK"], st)

/-- Python `smtp_QUIT` (the task cancellation and transport close do not change the
envelope state). -/
def smtp_QUIT (st : State) (arg : Option Bytes) : List Reply × State :=
  if argTruthy arg then ([.str "501 Syntax: QUIT"], st)
  else ([.str "221 Bye"], st)

/-- Python `smtp_EXPN`. -/
def smtp_EXPN (st : State) (_arg : Option Bytes) : List Reply × State :=
  ([.str "502 EXPN not implemented"], st)

/-- Python `smtp_RSET`: non-empty argument is a syntax error, else reset the
envelope (keeping the greeting); `rset_hook` of the base class is a no-op. -/
def smtp_RSET (st : State) (arg : Option Bytes) : List Reply × State :=
  if argTruthy arg then ([.str "501 Syntax: RSET"], st)
  else ([.str "250 OK"], setRsetState st)

/-- The reply of `smtp_HELP` (HELP only pushes, it never touches state). -/
def helpReply (st : State) (arg : Option Bytes) : Reply :=
  if argTruthy arg then
    let extended := " [SP <mail-parameters>]"
    let lcArg := match decodeAscii (arg.getD []) with
      | some s => strUpper s
      | none => ""
    if lcArg = "EHLO" then .str "250 Syntax: EHLO hostname"
    else if lcArg = "HELO" then .str "250 Syntax: HELO hostname"
    else if lcArg = "MAIL" then
      .str ("250 Syntax: MAIL FROM: <address>" ++
        (if st.extended_smtp then extended else ""))
    else if lcArg = "RCPT" then
      .str ("250 Syntax: RCPT TO: <address>" ++
        (if st.extended_smtp then extended else ""))
    else if lcArg = "DATA" then .str "250 Syntax: DATA"
    else if lcArg = "RSET" then .str "250 Syntax: RSET"
    else if lcArg = "NOOP" then .str "250 Syntax: NOOP"
    else if lcArg = "QUIT" then .str "250 Syntax: QUIT"
    else if lcArg = "VRFY" then .str "250 Syntax: VRFY <address>"
    else
      .str "501 Supported commands: EHLO HELO MAIL RCPT DATA RSET NOOP QUIT VRFY"
  else
    .str "250 Supported commands: EHLO HELO MAIL RCPT DATA RSET NOOP QUIT VRFY"

/-- Python `smtp_HELP`. -/
def smtp_HELP (st : State) (arg : Option Bytes) : List Reply × State :=
  ([helpReply st arg], st)

/-- The reply of `smtp_VRFY` (VRFY only pushes; `HeaderParseError` from the
address parser is caught locally, leaving `address = None`). -/
def vrfyReply (ext : Ext) (arg : Option Bytes) : Reply :=
  if argTruthy arg then
    let ab := arg.getD []
    match decodeArg ext ab with
    | .inr b => .bytes (asciiBytes "502 Could not VRFY " ++ b)
    | .inl s =>
      let address := match getaddr ext s with
        | .error _ => ""
        | .ok (a, _) => a
      if address ≠ "" then
        .str "252 Cannot VRFY user, but will accept message and attempt delivery"
      else .str ("502 Could not VRFY " ++ s)
  else .str "501 Syntax: VRFY <address>"

/-- Python `smtp_VRFY`. -/
def smtp_VRFY (ext : Ext) (st : State) (arg : Option Bytes) :
    List Reply × State :=
  ([vrfyReply ext arg], st)

/-- The ESMTP-parameter section of `smtp_MAIL`, in source order: `BODY`
(only when not `decode_data`), `SMTPUTF8` (only when `enable_SMTPUTF8`),
`SIZE`, leftover parameters; on success stores `mailfrom := address` into
`st1` and replies `250 OK`.  `st1` is the state with `mail_options` already
assigned, `syntaxerr` the 501 reply text computed by `smtp_MAIL`. -/
def mailParamsCheck (cfg : Config) (st1 : State) (syntaxerr : String)
    (address : String) (p0 : ParamDict) : List Reply × State :=
  let bodyV : ParamVal :=
    if cfg.decode_data then .val "7BIT"
    else (dictGet p0 "BODY").getD (.val "7BIT")
  let p1 := if cfg.decode_data then p0 else dictErase p0 "BODY"
  if bodyV ≠ .val "7BIT" && bodyV ≠ .val "8BITMIME" then
    ([.str "501 Error: BODY can only be one of 7BIT, 8BITMIME"], st1)
  else
    let utf8V := if cfg.enable_SMTPUTF8 then dictGet p1 "SMTPUTF8" else none
    let p2 := if cfg.enable_SMTPUTF8 then dictErase p1 "SMTPUTF8" else p1
    if isValParam utf8V then
      ([.str "501 Error: SMTPUTF8 takes no arguments"], st1)
    else
      let p3 := dictErase p2 "SIZE"
      let finish : List Reply × State :=
        if p3.length > 0 then
          ([.str "555 MAIL FROM parameters not recognized or not implemented"], st1)
        else
          ([.str "250 OK"], { st1 with mailfrom := some address })
      match dictGet p2 "SIZE" with
      | none => finish
      | some sizeV =>
        match sizeV with
        | .flag => ([.str syntaxerr], st1)
        | .val n =>
          if n = "" then finish
          else if isdigits n = false then ([.str syntaxerr], st1)
          else if cfg.data_size_limit ≠ 0 &&
              natOfDigits n > cfg.data_size_limit then
            ([.str "552 Error: message size exceeds fixed maximum message size"], st1)
          else finish

/-- Python `smtp_MAIL`.  Checks in source order: greeting, missing argument
(`arg is None`), argument decoding, `FROM:` keyword and address parse,
parameters forbidden without ESMTP, nested MAIL, `_getparams`, then the
ESMTP parameter section (`mailParamsCheck`); on success stores `mailfrom`
and replies `250 OK`.  A `HeaderParseError` escaping `_getaddr` propagates
to the main loop's generic exception reply (`Reply.exc`).  Note that
`self.mail_options` is assigned before `_getparams` runs, so the
parameter-error replies leave the state with `mail_options` already
updated. -/
def smtp_MAIL (cfg : Config) (ext : Ext) (st : State) (arg : Option Bytes) :
    List Reply × State :=
  if sbTruthy st.seen_greeting = false then
    ([.str "503 Error: send HELO first"], st)
  else
    let syntaxerr :=
      if st.extended_smtp then
        "501 Syntax: MAIL FROM: <address> [SP <mail-parameters>]"
      else "501 Syntax: MAIL FROM: <address>"
    match arg with
    | none => ([.str syntaxerr], st)
    | some argB =>
      match decodeArg ext argB with
      | .inr _ => ([.str syntaxerr], st)
      | .inl s =>
        let s := stripCommandKeyword "FROM:" s
        match getaddr ext s with
        | .error _ => ([.exc], st)
        | .ok ap =>
          let address := ap.1
          let params := ap.2
          if address = "" then ([.str syntaxerr], st)
          else if st.extended_smtp = false && params ≠ "" then
            ([.str syntaxerr], st)
          else if strTruthy st.mailfrom then
            ([.str "503 Error: nested MAIL command"], st)
          else
            let mopts := splitWS (strUpper params)
            let st1 := { st with mail_options := mopts }
            match getparams mopts with
            | none => ([.str syntaxerr], st1)
            | some p0 => mailParamsCheck cfg st1 syntaxerr address p0

/-- Python `smtp_RCPT`. -/
def smtp_RCPT (ext : Ext) (st : State) (arg : Option Bytes) :
    List Reply × State :=
  if sbTruthy st.seen_greeting = false then
    ([.str "503 Error: send HELO first"], st)
  else if strTruthy st.mailfrom = false then
    ([.str "503 Error: need MAIL command"], st)
  else
    let syntaxerr :=
      if st.extended_smtp then
        "501 Syntax: RCPT TO: <address> [SP <mail-parameters>]"
      else "501 Syntax: RCPT TO: <address>"
    match arg with
    | none => ([.str syntaxerr], st)
    | some argB =>
      match decodeArg ext argB with
      | .inr _ => ([.str syntaxerr], st)
      | .inl s =>
        let s := stripCommandKeyword "TO:" s
        match getaddr ext s with
        | .error _ => ([.exc], st)
        | .ok ap =>
          let address := ap.1
          let params := ap.2
          if address = "" then ([.str syntaxerr], st)
          else if st.extended_smtp = false && params ≠ "" then
            ([.str syntaxerr], st)
          else
            let ropts := splitWS (strUpper params)
            let st1 := { st with rcpt_options := ropts }
            match getparams ropts with
            | none => ([.str syntaxerr], st1)
            | some p0 =>
              if p0.length > 0 then
                ([.str "555 RCPT TO parameters not recognized or not implemented"], st1)
              else
                ([.str "250 OK"], { st1 with rcpttos := st1.rcpttos ++ [address] })

/-- Result of the DATA read loop. -/
structure DataLoopResult where
  numBytes : Nat
  sizeExceeded : Bool
  data : List Bytes
  sawTerminator : Bool
  deriving DecidableEq

/-- The DATA read loop of `smtp_DATA` over the stream of raw reader lines:
stop at the exact sentinel `b'.\r\n'` (before counting it); otherwise count
the full line (CRLF included) into `num_bytes`, latch `size_exceeded` when a
non-zero limit is surpassed, and, while not exceeded, accumulate the
`rstrip(b'\r\n')`-stripped line.  Exhausting the list without a sentinel
models the connection closing mid-DATA. -/
def dataLoop (limit : Nat) : List Bytes → Nat → Bool → List Bytes →
    DataLoopResult
  | [], n, exceeded, acc => ⟨n, exceeded, acc, false⟩
  | line :: rest, n, exceeded, acc =>
    if line = [46, 13, 10] then ⟨n, exceeded, acc, true⟩
    else
      let n' := n + line.length
      let exceeded' :=
        if exceeded = false && limit ≠ 0 && n' > limit then true else exceeded
      if exceeded' then dataLoop limit rest n' exceeded' acc
      else dataLoop limit rest n' exceeded' (acc ++ [rstripCrLf line])

/-- Python `data[i][1:]` when the accumulated line starts with a dot
(RFC 5321 §4.5.2 de-transparency). -/
def unstuff (l : Bytes) : Bytes :=
  match l with
  | 46 :: rest => rest
  | _ => l

/-- Python `b'\n'.join(data)`. -/
def joinLF (ls : List Bytes) : Bytes := (ls.intersperse [10]).flatten

/-- Python `smtp_DATA`: precondition checks, the `354` go-ahead, the read loop,
then either the over-size `552` path (envelope reset, handler NOT invoked)
or de-transparency, LF-joining, optional decoding, handler invocation and
envelope reset.  `lines` is the stream the reader yields during the data
phase; `handlerStatus` is what `event_handler.process_message` returns
(`none`/empty = falsy, engine replies `250 OK`).  The third component
records whether `process_message` was invoked; the payload passed to it is
`received_data` of the returned state (which `_set_post_data_state` does not
clear). -/
def smtp_DATA (cfg : Config) (ext : Ext) (st : State) (arg : Option Bytes)
    (lines : List Bytes) (handlerStatus : Option String) :
    List Reply × State × Bool :=
  if sbTruthy st.seen_greeting = false then
    ([.str "503 Error: send HELO first"], st, false)
  else if st.rcpttos = [] then
    ([.str "503 Error: need RCPT command"], st, false)
  else if argTruthy arg then
    ([.str "501 Syntax: DATA"], st, false)
  else
    let go := Reply.str "354 End data with <CR><LF>.<CR><LF>"
    let r := dataLoop cfg.data_size_limit lines 0 false []
    let st := { st with num_bytes := r.numBytes }
    if r.sizeExceeded then
      ([go, .str "552 Error: Too much mail data"], setPostDataState st, false)
    else
      let data := r.data.map unstuff
      let receivedB := joinLF data
      let received : StrOrBytes :=
        if cfg.decode_data then decodeArg ext receivedB else .inr receivedB
      let st := { st with received_data := received }
      let status := match handlerStatus with
        | some s => if s ≠ "" then s else "250 OK"
        | none => "250 OK"
      ([go, .str status], setPostDataState st, true)

/-- One full main-loop iteration of `_handle_client` on one raw line:
the front end (`processLine`) and then the verb dispatch.  `dataLines` and
`handlerStatus` feed `smtp_DATA` when it runs.  Returns the replies pushed
and the session state afterwards.  (The fall-through arm for an unknown verb
in the inner match is unreachable: `processLine` only dispatches members of
`smtpVerbs`.) -/
def stepLine (cfg : Config) (ext : Ext) (st : State) (line : Bytes)
    (dataLines : List Bytes) (handlerStatus : Option String) :
    List Reply × State :=
  match processLine st line with
  | .incompleteRead => ([], st)
  | .badSyntax => ([.str "500 Error: bad syntax"], st)
  | .decodeError => ([.exc], st)
  | .tooLong => ([.str "500 Error: line too long"], st)
  | .notRecognized v =>
    ([.str ("500 Error: command \"" ++ v ++ "\" not recognized")], st)
  | .dispatch v arg =>
    if v = "HELO" then smtp_HELO cfg st arg
    else if v = "EHLO" then smtp_EHLO cfg st arg
    else if v = "NOOP" then smtp_NOOP st arg
    else if v = "QUIT" then smtp_QUIT st arg
    else if v = "HELP" then smtp_HELP st arg
    else if v = "VRFY" then smtp_VRFY ext st arg
    else if v = "MAIL" then smtp_MAIL cfg ext st arg
    else if v = "RCPT" then smtp_RCPT ext st arg
    else if v = "RSET" then smtp_RSET st arg
    else if v = "DATA" then
      ((smtp_DATA cfg ext st arg dataLines handlerStatus).1,
       (smtp_DATA cfg ext st arg dataLines handlerStatus).2.1)
    else if v = "EXPN" then smtp_EXPN st arg
    else ([], st)

/-! ### Concrete instances used by witnesses and counterexamples -/

/-- A simple concrete model of `email._header_value_parser.get_angle_addr`
restricted to plain `<local@domain>` forms: the text between `<` and the
first `>` is the addr-spec, everything after the `>` is the remainder;
anything not starting with `<` raises. -/
def simpleAngleAddr (s : String) : Except Unit (String × String) :=
  match s.toList with
  | '<' :: rest =>
    if rest.contains '>' then
      .ok (String.mk (rest.takeWhile (fun c => c ≠ '>')),
           String.mk (((rest.dropWhile (fun c => c ≠ '>'))).drop 1))
    else .error ()
  | _ => .error ()

/-- A concrete external-collaborator record: UTF-8 decoding restricted to its
ASCII fragment, a latin-1 fallback that always fails, the simple angle-addr
parser, and an addr-spec parser that parses nothing. -/
def extSimple : Ext where
  decodeUtf8 := decodeAscii
  decode8bit := fun _ => none
  getAngleAddr := simpleAngleAddr
  getAddrSpec := fun s => .ok ("", s)

/-- A configuration with the constructor's default options
(`data_size_limit = 33554432`, everything else off). -/
def cfgDefault : Config := ⟨"example.org", 33554432, false, false⟩

/-- Configuration with `data_size_limit = 100`, `enable_SMTPUTF8 = True`
(which forces `decode_data = False`). -/
def cfgUtf8Small : Config := ⟨"example.org", 100, true, false⟩

/-- Session state after a successful `HELO client`. -/
def stHelo : State := { initState with seen_greeting := .inl "client" }

/-- Session state after `HELO client` and a successful `MAIL FROM:<a@b>`. -/
def stMailed : State := { stHelo with mailfrom := some "a@b" }

/-- Session state after `HELO client`, `MAIL FROM:<a@b>`, `RCPT TO:<c@d>`. -/
def stReady : State := { stMailed with rcpttos := ["c@d"] }

/-- Session state after `EHLO client` under `cfgUtf8Small` (SIZE and
SMTPUTF8 both advertised, so `command_size_limits['MAIL'] = 548`). -/
def stEhlo548 : State :=
  { initState with
    seen_greeting := .inl "client"
    extended_smtp := true
    command_size_limits := [("MAIL", 548)] }

/-- An unreachable-but-legal state with a tiny NOOP line limit, used to
exercise the size-check theorem on a small input. -/
def stNoopTiny : State :=
  { initState with extended_smtp := true, command_size_limits := [("NOOP", 2)] }

/-- A 514-byte raw command line: `NOOP`, a space, 507 `A`s and CRLF.
Its stripped length is 512, exactly the default command size limit. -/
def longNoopLine : Bytes := [78, 79, 79, 80, 32] ++ List.replicate 507 65 ++ [13, 10]

/-- Sum of the byte lengths of a list of raw lines. -/
def sumLens (ls : List Bytes) : Nat := (ls.map List.length).sum

/-- The implicit envelope invariant of C10: whenever `rcpttos` is non-empty,
`mailfrom` is set to a non-empty address (i.e. is truthy in the Python
sense). -/
def envInvariant (st : State) : Prop :=
  st.rcpttos ≠ [] → strTruthy st.mailfrom = true

/-! ### Helper lemmas -/

/-- Looking up a key just stored in `command_size_limits` returns the stored
value. -/
theorem lookupLimit_store (l : List (String × Nat)) (k : String) (v : Nat) :
    lookupLimit (storeLimit l k v) k = v := by
  unfold lookupLimit storeLimit
  have hnone : (l.filter (fun p => p.1 ≠ k)).find? (fun p => p.1 == k) = none := by
    rw [List.find?_eq_none]
    intro x hx
    have hne := (List.mem_filter.mp hx).2
    simpa using hne
  rw [List.find?_append, hnone]
  simp

/-- Erasing one key of a parameter dictionary does not change the lookup of
a different key. -/
theorem dictGet_erase_ne (d : ParamDict) (k k' : String) (h : k ≠ k') :
    dictGet (dictErase d k') k = dictGet d k := by
  induction d with
  | nil => rfl
  | cons p t ih =>
    by_cases hp : p.1 = k'
    · have hk : (p.1 == k) = false := by
        rw [hp]
        exact beq_eq_false_iff_ne.mpr (fun hh => h hh.symm)
      simp only [dictGet, dictErase, List.filter_cons, hp] at ih ⊢
      simp only [ne_eq, not_true_eq_false, decide_False, Bool.false_eq_true, if_false,
        List.find?_cons, hk]
      exact ih
    · have hnp : (decide (p.1 ≠ k')) = true := by simp [hp]
      simp only [dictGet, dictErase, List.filter_cons, hnp, if_true] at ih ⊢
      simp only [List.find?_cons]
      cases hq : (p.1 == k) with
      | true => rfl
      | false => exact ih

/-- ASCII-uppercasing a byte preserves whether it is below 128. -/
theorem upperByte_lt (b : Nat) : upperByte b < 128 ↔ b < 128 := by
  unfold upperByte
  split
  · rename_i h
    simp only [Bool.and_eq_true, decide_eq_true_eq] at h
    omega
  · omega

/-- Lemma: `bytes.upper()` preserves pure-ASCII-ness. -/
theorem bytesUpper_ascii (l : Bytes) :
    ((bytesUpper l).all fun b => b < 128) = (l.all fun b => b < 128) := by
  induction l with
  | nil => rfl
  | cons b t ih =>
    simp only [bytesUpper, List.map_cons, List.all_cons] at ih ⊢
    rw [ih, decide_eq_decide.mpr (upperByte_lt b)]

/-- Lemma: `sumLens` over `cons`. -/
theorem sumLens_cons (line : Bytes) (bs : List Bytes) :
    sumLens (line :: bs) = line.length + sumLens bs := by
  simp [sumLens]

/-- The DATA loop counts every byte of every line before the first sentinel
line; the sentinel itself is not counted. -/
theorem dataLoop_numBytes (limit : Nat) (rest : List Bytes) :
    ∀ (body : List Bytes) (n : Nat) (e : Bool) (acc : List Bytes),
      [46, 13, 10] ∉ body →
      (dataLoop limit (body ++ [46, 13, 10] :: rest) n e acc).numBytes =
        n + sumLens body := by
  intro body
  induction body with
  | nil => intro n e acc _; simp [dataLoop, sumLens]
  | cons line bs ih =>
    intro n e acc hb
    have hline : line ≠ [46, 13, 10] := fun h => hb (by simp [h])
    have hbs : [46, 13, 10] ∉ bs := fun h => hb (List.mem_cons_of_mem _ h)
    simp only [List.cons_append, dataLoop, if_neg hline, List.append_eq]
    split
    · rw [if_pos rfl, ih _ _ _ hbs, sumLens_cons]
      omega
    · split
      · rw [ih _ _ _ hbs, sumLens_cons]
        omega
      · rw [ih _ _ _ hbs, sumLens_cons]
        omega

/-- If the total size of the lines before the sentinel stays within a
(possibly disabled) limit, the DATA loop never latches `size_exceeded` and
accumulates every pre-sentinel line with its trailing CR/LF bytes
stripped. -/
theorem dataLoop_not_exceeded (limit : Nat) (rest : List Bytes) :
    ∀ (body : List Bytes) (n : Nat) (acc : List Bytes),
      [46, 13, 10] ∉ body →
      (limit = 0 ∨ n + sumLens body ≤ limit) →
      (dataLoop limit (body ++ [46, 13, 10] :: rest) n false acc).sizeExceeded = false ∧
      (dataLoop limit (body ++ [46, 13, 10] :: rest) n false acc).data =
        acc ++ body.map rstripCrLf := by
  intro body
  induction body with
  | nil => intro n acc _ _; simp [dataLoop]
  | cons line bs ih =>
    intro n acc hb hok
    have hline : line ≠ [46, 13, 10] := fun h => hb (by simp [h])
    have hbs : [46, 13, 10] ∉ bs := fun h => hb (List.mem_cons_of_mem _ h)
    have hok' : limit = 0 ∨ (n + line.length) + sumLens bs ≤ limit := by
      rcases hok with h | h
      · exact Or.inl h
      · right; rw [sumLens_cons] at h; omega
    simp only [List.cons_append, dataLoop, if_neg hline, List.append_eq]
    split
    · rename_i hc
      exfalso
      simp only [Bool.and_eq_true, decide_eq_true_eq] at hc
      rcases hok with h | h
      · exact hc.1.2 h
      · rw [sumLens_cons] at h
        have := hc.2
        omega
    · rcases ih (n + line.length) (acc ++ [rstripCrLf line]) hbs hok' with ⟨h1, h2⟩
      refine ⟨h1, ?_⟩
      simp only [Bool.false_eq_true, if_false]
      rw [h2]
      simp

/-- If the limit is enabled and the total size of the lines before the
sentinel exceeds it (or `size_exceeded` is already latched), the DATA loop
ends with `size_exceeded` latched.  The last hypothesis is the loop
invariant that a non-latched count never exceeds the limit. -/
theorem dataLoop_exceeded (limit : Nat) (rest : List Bytes) (hlim : limit ≠ 0) :
    ∀ (body : List Bytes) (n : Nat) (e : Bool) (acc : List Bytes),
      [46, 13, 10] ∉ body →
      (limit < n + sumLens body ∨ e = true) →
      (e = false → n ≤ limit) →
      (dataLoop limit (body ++ [46, 13, 10] :: rest) n e acc).sizeExceeded = true := by
  intro body
  induction body with
  | nil =>
    intro n e acc _ hover hinv
    cases e
    · exfalso
      rcases hover with h | h
      · have := hinv rfl
        simp [sumLens] at h
        omega
      · exact Bool.false_ne_true h
    · simp [dataLoop]
  | cons line bs ih =>
    intro n e acc hb hover hinv
    have hline : line ≠ [46, 13, 10] := fun h => hb (by simp [h])
    have hbs : [46, 13, 10] ∉ bs := fun h => hb (List.mem_cons_of_mem _ h)
    simp only [List.cons_append, dataLoop, if_neg hline, List.append_eq]
    split
    · rw [if_pos rfl]
      exact ih _ _ _ hbs (Or.inr rfl) (fun h => absurd h (by simp))
    · rename_i hc
      simp only [Bool.and_eq_true, decide_eq_true_eq, not_and] at hc
      split
      · rename_i he
        exact ih _ _ _ hbs (Or.inr he) (fun h => absurd (he.symm.trans h) (by simp))
      · rename_i he
        have he' : e = false := by
          cases e
          · rfl
          · exact absurd rfl he
        have hn : n ≤ limit := hinv he'
        have hgt : ¬ (n + line.length > limit) := hc ⟨he', hlim⟩
        apply ih _ _ _ hbs _ (fun _ => by omega)
        left
        rcases hover with h | h
        · rw [sumLens_cons] at h
          omega
        · exact absurd (he'.symm.trans h) (by simp)

/-! ### Claim theorems -/

/-- C9: RSET's envelope reset (`_set_rset_state`) is idempotent — applying
it twice to any session state yields exactly the state obtained by applying
it once (all fields: mailfrom, rcpttos, require_SMTPUTF8, received_data,
received_lines, and the untouched greeting). -/
theorem c9_rset_idempotent (s : State) :
    setRsetState (setRsetState s) = setRsetState s := rfl

/-- C1 (amended): the length compared against the applicable command size
limit is the length of the line AFTER `rstrip(b'\r\n')` stripping; whenever
that stripped length exceeds the limit the server replies
`500 Error: line too long` and the session state (in particular the
envelope `mailfrom`/`rcpttos`) is unchanged. -/
theorem c1_stripped_line_too_long (st : State) (line : Bytes) (cmd : String)
    (h1 : endsWithCRLF line = true)
    (h2 : rstripCrLf line ≠ [])
    (h3 : decodeAscii (bytesUpper (verbArgSplit (rstripCrLf line)).1) = some cmd)
    (h4 : (rstripCrLf line).length > maxSizeFor st cmd) :
    processLine st line = .tooLong ∧
    ∀ cfg ext dls hstat,
      stepLine cfg ext st line dls hstat = ([.str "500 Error: line too long"], st) := by
  have hp : processLine st line = .tooLong := by
    unfold processLine
    rw [h1]
    simp only [Bool.true_eq_false, if_false, if_neg h2, h3]
    rw [if_pos h4]
  refine ⟨hp, fun cfg ext dls hstat => ?_⟩
  unfold stepLine
  rw [hp]

set_option maxRecDepth 8192 in
/-- C1 counterexample: the claim measures the line length BEFORE stripping.
On a fresh session, the 514-byte line `NOOP <507 A's>\r\n` has pre-strip
length 514 > 512, so the claim demands `500 Error: line too long`; the code
strips first (length 512, not over the limit), dispatches NOOP and replies
`501 Syntax: NOOP`. -/
theorem c1_counterexample :
    longNoopLine.length = 514 ∧ 514 > commandSizeLimit ∧
    stepLine cfgDefault extSimple initState longNoopLine [] none =
      ([.str "501 Syntax: NOOP"], initState) ∧
    Reply.str "501 Syntax: NOOP" ≠ .str "500 Error: line too long" := by
  refine ⟨by decide, by decide, by decide, by decide⟩

/-- C1 witness: a concrete application of `c1_stripped_line_too_long`
(`NOOP\r\n` against a 2-byte NOOP limit). -/
theorem c1_witness :
    processLine stNoopTiny [78, 79, 79, 80, 13, 10] = .tooLong ∧
    stepLine cfgDefault extSimple stNoopTiny [78, 79, 79, 80, 13, 10] [] none =
      ([.str "500 Error: line too long"], stNoopTiny) := by
  have h := c1_stripped_line_too_long stNoopTiny [78, 79, 79, 80, 13, 10] "NOOP"
    (by decide) (by decide) (by decide) (by decide)
  exact ⟨h.1, h.2 cfgDefault extSimple [] none⟩

/-- C3 (amended): a command line whose verb token contains a non-ASCII byte
makes `str(..., encoding='ascii')` raise `UnicodeDecodeError`; the main
loop's generic exception handler replies `'500 Error: %s' % e` — NOT the
`500 Error: command "<VERB>" not recognized` reply — and the session
continues with state unchanged. -/
theorem c3_nonascii_verb (st : State) (line : Bytes)
    (h1 : endsWithCRLF line = true)
    (h2 : rstripCrLf line ≠ [])
    (h3 : ((verbArgSplit (rstripCrLf line)).1.all fun b => b < 128) = false) :
    processLine st line = .decodeError ∧
    ∀ cfg ext dls hstat,
      stepLine cfg ext st line dls hstat = ([.exc], st) := by
  have hdec : decodeAscii (bytesUpper (verbArgSplit (rstripCrLf line)).1) = none := by
    unfold decodeAscii
    rw [bytesUpper_ascii, h3]
    simp
  have hp : processLine st line = .decodeError := by
    unfold processLine
    rw [h1]
    simp only [Bool.true_eq_false, if_false, if_neg h2, hdec]
  refine ⟨hp, fun cfg ext dls hstat => ?_⟩
  unfold stepLine
  rw [hp]

/-- C3 counterexample: for the line `b'M\xc3IL a\r\n'` (verb bytes contain
`0xc3`), the claim demands the reply
`500 Error: command "<VERB>" not recognized` (a `Reply.str` of that shape);
the code instead takes the `UnicodeDecodeError` path and pushes the generic
exception reply (`Reply.exc`, i.e. `'500 Error: %s' % e`), whose text is the
decode-error message, not the not-recognized reply. -/
theorem c3_counterexample :
    processLine initState [77, 195, 73, 76, 32, 97, 13, 10] = .decodeError ∧
    LineOutcome.reply .decodeError = none ∧
    stepLine cfgDefault extSimple initState [77, 195, 73, 76, 32, 97, 13, 10] [] none =
      ([.exc], initState) ∧
    Reply.exc ≠ .str ("500 Error: command \"" ++ "MÃIL" ++ "\" not recognized") := by
  refine ⟨by decide, rfl, by decide, by decide⟩

/-- C3 witness: a concrete application of `c3_nonascii_verb` to
`b'M\xc3IL a\r\n'`. -/
theorem c3_witness :
    processLine stHelo [77, 195, 73, 76, 32, 97, 13, 10] = .decodeError ∧
    stepLine cfgDefault extSimple stHelo [77, 195, 73, 76, 32, 97, 13, 10] [] none =
      ([.exc], stHelo) := by
  have h := c3_nonascii_verb stHelo [77, 195, 73, 76, 32, 97, 13, 10]
    (by decide) (by decide) (by decide)
  exact ⟨h.1, h.2 cfgDefault extSimple [] none⟩

/-- C4 (amended): after a DATA phase ends at the sentinel, `num_bytes`
equals the sum of the byte lengths (CRLF included) of the lines read BEFORE
the sentinel; the sentinel line `.\r\n` itself is NOT counted, because the
loop breaks on it before `num_bytes += len(line)` runs. -/
theorem c4_data_num_bytes (cfg : Config) (ext : Ext) (st : State)
    (arg : Option Bytes) (body rest : List Bytes) (hstat : Option String)
    (hg : sbTruthy st.seen_greeting = true)
    (hr : st.rcpttos ≠ [])
    (ha : argTruthy arg = false)
    (hb : [46, 13, 10] ∉ body) :
    (smtp_DATA cfg ext st arg (body ++ [46, 13, 10] :: rest) hstat).2.1.num_bytes
      = sumLens body := by
  unfold smtp_DATA
  simp only [hg, Bool.true_eq_false, if_false, if_neg hr, ha, Bool.false_eq_true]
  split
  · simp [setPostDataState, dataLoop_numBytes cfg.data_size_limit rest body 0 false [] hb]
  · simp [setPostDataState, dataLoop_numBytes cfg.data_size_limit rest body 0 false [] hb]

/-- C4 counterexample: sending `a\r\n` then the sentinel `.\r\n` leaves
`num_bytes = 3` (only the 3 bytes of `a\r\n`), while the claim — which says
the sentinel line's length is also added — demands `3 + 3 = 6`. -/
theorem c4_counterexample :
    (smtp_DATA cfgDefault extSimple stReady none [[97, 13, 10], [46, 13, 10]]
      none).2.1.num_bytes = 3 ∧
    sumLens [[97, 13, 10], [46, 13, 10]] = 6 ∧ (3 : Nat) ≠ 6 := by
  refine ⟨by decide, by decide, by decide⟩

/-- C4 witness: a concrete application of `c4_data_num_bytes`. -/
theorem c4_witness :
    (smtp_DATA cfgDefault extSimple stReady none [[97, 13, 10], [46, 13, 10]]
      none).2.1.num_bytes = sumLens [[97, 13, 10]] := by
  exact c4_data_num_bytes cfgDefault extSimple stReady none [[97, 13, 10]]
    [] none (by decide) (by decide) (by decide) (by decide)

/-- C2 (amended): for a DATA phase (raw-bytes mode, `decode_data = False`)
whose total pre-sentinel payload does not exceed the (possibly disabled)
`data_size_limit`, the handler IS invoked and the payload passed to it is
the sent lines with ALL trailing CR/LF bytes stripped (Python
`rstrip(b'\r\n')`, which strips more than one trailing CRLF) and each
leading dot removed, joined by a single LF.  For lines that end in exactly
one CRLF and whose content does not itself end in CR or LF this coincides
with the claim's per-line CRLF stripping; the dot-stuffing example of the
claim (`..line1\r\n...\r\n.\r\n` delivering `.line1\n..`) holds and is the
witness below. -/
theorem c2_data_payload (cfg : Config) (ext : Ext) (st : State)
    (arg : Option Bytes) (body rest : List Bytes) (hstat : Option String)
    (hg : sbTruthy st.seen_greeting = true)
    (hr : st.rcpttos ≠ [])
    (ha : argTruthy arg = false)
    (hd : cfg.decode_data = false)
    (hb : [46, 13, 10] ∉ body)
    (hsize : cfg.data_size_limit = 0 ∨ sumLens body ≤ cfg.data_size_limit) :
    (smtp_DATA cfg ext st arg (body ++ [46, 13, 10] :: rest) hstat).2.2 = true ∧
    (smtp_DATA cfg ext st arg (body ++ [46, 13, 10] :: rest) hstat).2.1.received_data
      = .inr (joinLF ((body.map rstripCrLf).map unstuff)) := by
  have hsize' : cfg.data_size_limit = 0 ∨ 0 + sumLens body ≤ cfg.data_size_limit := by
    rcases hsize with h | h
    · exact Or.inl h
    · right; omega
  rcases dataLoop_not_exceeded cfg.data_size_limit rest body 0 [] hb hsize' with ⟨h1, h2⟩
  unfold smtp_DATA
  simp only [hg, Bool.true_eq_false, if_false, if_neg hr, ha, Bool.false_eq_true, h1, h2,
    hd, List.nil_append, setPostDataState]
  simp

/-- C2 counterexample: a sent line `a\r\r\n` (content `a\r` framed by CRLF).
The claim says the delivered payload is that line with its trailing CRLF
stripped, i.e. `a\r` = `[97, 13]`; the code's `rstrip(b'\r\n')` strips ALL
trailing CR/LF bytes and delivers `a` = `[97]`. -/
theorem c2_counterexample :
    (smtp_DATA cfgDefault extSimple stReady none [[97, 13, 13, 10], [46, 13, 10]]
      none).2.1.received_data = .inr [97] ∧
    ([97] : Bytes) ≠ [97, 13] := by
  refine ⟨by decide, by decide⟩

/-- C2 witness: the dot-stuffing round trip of the claim — DATA body
`..line1\r\n...\r\n.\r\n` delivers exactly the bytes `.line1\n..`. -/
theorem c2_witness :
    (smtp_DATA cfgDefault extSimple stReady none
      [[46, 46, 108, 105, 110, 101, 49, 13, 10], [46, 46, 46, 13, 10], [46, 13, 10]]
      none).2.2 = true ∧
    (smtp_DATA cfgDefault extSimple stReady none
      [[46, 46, 108, 105, 110, 101, 49, 13, 10], [46, 46, 46, 13, 10], [46, 13, 10]]
      none).2.1.received_data
      = .inr [46, 108, 105, 110, 101, 49, 10, 46, 46] := by
  have h := c2_data_payload cfgDefault extSimple stReady none
    [[46, 46, 108, 105, 110, 101, 49, 13, 10], [46, 46, 46, 13, 10]] [] none
    (by decide) (by decide) (by decide) (by decide) (by decide)
    (by right; decide)
  exact ⟨h.1, h.2.trans (by decide)⟩

/-- C7: when the accumulated pre-sentinel byte count exceeds a non-zero
`data_size_limit`, the server replies `552 Error: Too much mail data` after
the `354` go-ahead, resets the envelope (`mailfrom := None`,
`rcpttos := []`, via `_set_post_data_state`), and does not invoke the
handler's `process_message`. -/
theorem c7_data_overflow (cfg : Config) (ext : Ext) (st : State)
    (arg : Option Bytes) (body rest : List Bytes) (hstat : Option String)
    (hg : sbTruthy st.seen_greeting = true)
    (hr : st.rcpttos ≠ [])
    (ha : argTruthy arg = false)
    (hb : [46, 13, 10] ∉ body)
    (hlim : cfg.data_size_limit ≠ 0)
    (hover : cfg.data_size_limit < sumLens body) :
    smtp_DATA cfg ext st arg (body ++ [46, 13, 10] :: rest) hstat =
      ([.str "354 End data with <CR><LF>.<CR><LF>",
        .str "552 Error: Too much mail data"],
       setPostDataState { st with num_bytes := sumLens body }, false) := by
  have hexc := dataLoop_exceeded cfg.data_size_limit rest hlim body 0 false []
    hb (Or.inl (by omega)) (fun _ => Nat.zero_le _)
  have hnum := dataLoop_numBytes cfg.data_size_limit rest body 0 false [] hb
  unfold smtp_DATA
  simp only [hg, Bool.true_eq_false, if_false, if_neg hr, ha, Bool.false_eq_true, hexc,
    hnum, if_true, Nat.zero_add]

/-- C7 witness: with `data_size_limit = 100` and a 102-byte line, the DATA
phase replies 552, resets the envelope and skips the handler. -/
theorem c7_witness :
    smtp_DATA cfgUtf8Small extSimple stReady none
      [List.replicate 100 97 ++ [13, 10], [46, 13, 10]] none =
      ([.str "354 End data with <CR><LF>.<CR><LF>",
        .str "552 Error: Too much mail data"],
       setPostDataState { stReady with num_bytes := 102 }, false) := by
  have h := c7_data_overflow cfgUtf8Small extSimple stReady none
    [List.replicate 100 97 ++ [13, 10]] [] none
    (by decide) (by decide) (by decide) (by decide) (by decide) (by decide)
  exact h.trans (by decide)

/-- C8: an accepted EHLO on a session with no prior greeting, with
`data_size_limit > 0` and `enable_SMTPUTF8 = True` (so `decode_data` was
forced `False` by the constructor), pushes exactly, in order,
`250-<hostname>`, `250-SIZE <limit>`, `250-8BITMIME`, `250-SMTPUTF8` and the
terminal `250 HELP`, and afterwards `command_size_limits['MAIL']`
equals 512 + 26 + 10 = 548. -/
theorem c8_ehlo_capabilities (cfg : Config) (st : State) (arg : Option Bytes)
    (hv : cfg.valid) (hu : cfg.enable_SMTPUTF8 = true)
    (hl : cfg.data_size_limit ≠ 0)
    (hg : sbTruthy st.seen_greeting = false)
    (ha : argTruthy arg = true)
    (hm : lookupLimit st.command_size_limits "MAIL" = commandSizeLimit) :
    (smtp_EHLO cfg st arg).1 =
      [.str ("250-" ++ cfg.hostname),
       .str ("250-SIZE " ++ toString cfg.data_size_limit),
       .str "250-8BITMIME", .str "250-SMTPUTF8", .str "250 HELP"] ∧
    lookupLimit (smtp_EHLO cfg st arg).2.command_size_limits "MAIL" = 548 := by
  have hd : cfg.decode_data = false := hv hu
  unfold smtp_EHLO
  rw [ha, hg]
  simp only [Bool.true_eq_false, if_false, Bool.false_eq_true, if_neg hl, if_pos hl,
    hd, hu, if_pos rfl, if_true]
  constructor
  · simp
  · rw [lookupLimit_store, lookupLimit_store]
    simp only [setRsetState, setPostDataState]
    rw [hm]
    decide

/-- C8 witness: `c8_ehlo_capabilities` applied to the concrete configuration
`hostname example.org, data_size_limit 100, enable_SMTPUTF8` on the initial
session state. -/
theorem c8_witness :
    (smtp_EHLO cfgUtf8Small initState (some [99])).1 =
      [.str "250-example.org", .str "250-SIZE 100", .str "250-8BITMIME",
       .str "250-SMTPUTF8", .str "250 HELP"] ∧
    lookupLimit (smtp_EHLO cfgUtf8Small initState (some [99])).2.command_size_limits
      "MAIL" = 548 := by
  have h := c8_ehlo_capabilities cfgUtf8Small initState (some [99])
    (fun _ => rfl) rfl (by decide) (by decide) (by decide) (by decide)
  exact ⟨h.1.trans (by decide), h.2⟩

/-- C5 (amended): a syntactically well-formed MAIL command (argument
present and decodable, `FROM:` address parses to a non-empty address, and
no trailing parameters unless the session is ESMTP) received while the
session has a greeting and `mailfrom` is already set is answered with
`503 Error: nested MAIL command` and leaves the whole session state — in
particular `mailfrom` and `rcpttos` — unchanged.  (For ill-formed MAIL
commands the syntax checks run first and reply 501 instead; see the
counterexample.) -/
theorem c5_nested_mail (cfg : Config) (ext : Ext) (st : State) (argB : Bytes)
    (s address params : String)
    (hg : sbTruthy st.seen_greeting = true)
    (hm : strTruthy st.mailfrom = true)
    (hdec : decodeArg ext argB = .inl s)
    (haddr : getaddr ext (stripCommandKeyword "FROM:" s) = .ok (address, params))
    (hne : address ≠ "")
    (hext : st.extended_smtp = true ∨ params = "") :
    smtp_MAIL cfg ext st (some argB) =
      ([.str "503 Error: nested MAIL command"], st) := by
  unfold smtp_MAIL
  rw [hg]
  simp only [Bool.true_eq_false, if_false, hdec, haddr]
  rcases hext with he | hp
  · simp [hne, hm, he]
  · simp [hne, hm, hp]

/-- C5 counterexample: with a greeting present and `mailfrom` already set
(`stMailed`, reachable by `HELO client` then `MAIL FROM:<a@b>`), a `MAIL`
command with no argument is a "MAIL command received while mailfrom is
set", but the code replies `501 Syntax: MAIL FROM: <address>` — the
argument-syntax checks run before the nested-MAIL check — not the
`503 Error: nested MAIL command` reply the claim demands. -/
theorem c5_counterexample :
    smtp_MAIL cfgDefault extSimple stMailed none =
      ([.str "501 Syntax: MAIL FROM: <address>"], stMailed) ∧
    Reply.str "501 Syntax: MAIL FROM: <address>" ≠
      .str "503 Error: nested MAIL command" := by
  refine ⟨by decide, by decide⟩

/-- C5 witness: `c5_nested_mail` applied to the concrete session `stMailed`
and the well-formed command argument `FROM:<x@y>`. -/
theorem c5_witness :
    smtp_MAIL cfgDefault extSimple stMailed (some (asciiBytes "FROM:<x@y>")) =
      ([.str "503 Error: nested MAIL command"], stMailed) := by
  exact c5_nested_mail cfgDefault extSimple stMailed (asciiBytes "FROM:<x@y>")
    "FROM:<x@y>" "x@y" "" (by decide) (by decide) (by decide) (by rfl)
    (by decide) (Or.inr rfl)

/-- C6 (amended): for a MAIL command on an ESMTP session whose parameters
parse and carry `SIZE=N` (and whose BODY/SMTPUTF8 parameters, if present,
pass their own earlier checks): when `N` is all digits, `data_size_limit > 0`
and `N > data_size_limit`, the reply is
`552 Error: message size exceeds fixed maximum message size` and `mailfrom`
is not set (only `mail_options` has been updated); when `N` is not all
digits, the reply is the 501 syntax reply.  (An invalid BODY or SMTPUTF8
parameter in the same command is reported first instead — see the
counterexample.) -/
theorem c6_mail_size (cfg : Config) (ext : Ext) (st : State) (argB : Bytes)
    (s address params : String) (p0 : ParamDict) (n : String)
    (hg : sbTruthy st.seen_greeting = true)
    (hmf : strTruthy st.mailfrom = false)
    (hext : st.extended_smtp = true)
    (hdec : decodeArg ext argB = .inl s)
    (haddr : getaddr ext (stripCommandKeyword "FROM:" s) = .ok (address, params))
    (hne : address ≠ "")
    (hp : getparams (splitWS (strUpper params)) = some p0)
    (hbody : cfg.decode_data = false →
      dictGet p0 "BODY" = none ∨ dictGet p0 "BODY" = some (.val "7BIT") ∨
      dictGet p0 "BODY" = some (.val "8BITMIME"))
    (hutf : cfg.enable_SMTPUTF8 = true →
      dictGet p0 "SMTPUTF8" = none ∨ dictGet p0 "SMTPUTF8" = some .flag)
    (hsz : dictGet p0 "SIZE" = some (.val n))
    (hn : n ≠ "") :
    (isdigits n = true → cfg.data_size_limit ≠ 0 →
      natOfDigits n > cfg.data_size_limit →
      smtp_MAIL cfg ext st (some argB) =
        ([.str "552 Error: message size exceeds fixed maximum message size"],
         { st with mail_options := splitWS (strUpper params) })) ∧
    (isdigits n = false →
      smtp_MAIL cfg ext st (some argB) =
        ([.str "501 Syntax: MAIL FROM: <address> [SP <mail-parameters>]"],
         { st with mail_options := splitWS (strUpper params) })) := by
  have hp1 : dictGet (if cfg.decode_data = true then p0 else dictErase p0 "BODY")
      "SMTPUTF8" = dictGet p0 "SMTPUTF8" := by
    by_cases hdd : cfg.decode_data = true
    · rw [if_pos hdd]
    · rw [if_neg hdd, dictGet_erase_ne _ _ _ (by decide)]
  have hp1sz : dictGet (if cfg.decode_data = true then p0 else dictErase p0 "BODY")
      "SIZE" = dictGet p0 "SIZE" := by
    by_cases hdd : cfg.decode_data = true
    · rw [if_pos hdd]
    · rw [if_neg hdd, dictGet_erase_ne _ _ _ (by decide)]
  have hbodycond :
      (decide ((if cfg.decode_data = true then ParamVal.val "7BIT"
          else (dictGet p0 "BODY").getD (.val "7BIT")) ≠ ParamVal.val "7BIT") &&
       decide ((if cfg.decode_data = true then ParamVal.val "7BIT"
          else (dictGet p0 "BODY").getD (.val "7BIT")) ≠ ParamVal.val "8BITMIME"))
        = false := by
    by_cases hdd : cfg.decode_data = true
    · simp [hdd]
    · have hdd' : cfg.decode_data = false := by simpa using hdd
      rcases hbody hdd' with hB | hB | hB <;> simp [hdd, hB]
  have hutf8V :
      (if cfg.enable_SMTPUTF8 = true then
        dictGet (if cfg.decode_data = true then p0 else dictErase p0 "BODY") "SMTPUTF8"
      else none) = none ∨
      (if cfg.enable_SMTPUTF8 = true then
        dictGet (if cfg.decode_data = true then p0 else dictErase p0 "BODY") "SMTPUTF8"
      else none) = some .flag := by
    by_cases hen : cfg.enable_SMTPUTF8 = true
    · rw [if_pos hen, hp1]
      exact hutf hen
    · rw [if_neg hen]
      exact Or.inl rfl
  have hp2sz : dictGet
      (if cfg.enable_SMTPUTF8 = true then
        dictErase (if cfg.decode_data = true then p0 else dictErase p0 "BODY") "SMTPUTF8"
      else (if cfg.decode_data = true then p0 else dictErase p0 "BODY")) "SIZE"
      = some (.val n) := by
    by_cases hen : cfg.enable_SMTPUTF8 = true
    · rw [if_pos hen, dictGet_erase_ne _ _ _ (by decide), hp1sz, hsz]
    · rw [if_neg hen, hp1sz, hsz]
  have hucond : isValParam
      (if cfg.enable_SMTPUTF8 = true then
        dictGet (if cfg.decode_data = true then p0 else dictErase p0 "BODY") "SMTPUTF8"
      else none) = false := by
    rcases hutf8V with hu | hu <;> rw [hu] <;> rfl
  unfold smtp_MAIL mailParamsCheck
  rw [hg]
  simp only [Bool.true_eq_false, if_false, hdec, haddr, if_neg hne, hext, hmf,
    decide_True, decide_False, Bool.false_and, Bool.false_eq_true, if_false, hp,
    hbodycond, hucond, hp2sz, if_neg hn]
  constructor
  · intro h1 h2 h3
    simp [h1, h2, h3]
  · intro h1
    simp [h1]

/-- C6 counterexample: on an ESMTP session with `data_size_limit = 100`,
the command `MAIL FROM:<a@b> BODY=X SIZE=200` carries `SIZE=200` (all
digits, 200 > 100), so the claim demands the 552 reply; the code checks
BODY first and replies `501 Error: BODY can only be one of 7BIT, 8BITMIME`
instead. -/
theorem c6_counterexample :
    (smtp_MAIL cfgUtf8Small extSimple stEhlo548
      (some (asciiBytes "FROM:<a@b> BODY=X SIZE=200"))).1 =
      [.str "501 Error: BODY can only be one of 7BIT, 8BITMIME"] ∧
    Reply.str "501 Error: BODY can only be one of 7BIT, 8BITMIME" ≠
      .str "552 Error: message size exceeds fixed maximum message size" := by
  refine ⟨by decide, by decide⟩

/-- C6 witness: `c6_mail_size` applied to `MAIL FROM:<a@b> SIZE=200` on an
ESMTP session with `data_size_limit = 100`: the 552 reply, with `mailfrom`
still unset. -/
theorem c6_witness :
    smtp_MAIL cfgUtf8Small extSimple stEhlo548
      (some (asciiBytes "FROM:<a@b> SIZE=200")) =
      ([.str "552 Error: message size exceeds fixed maximum message size"],
       { stEhlo548 with mail_options := ["SIZE=200"] }) := by
  have h := (c6_mail_size cfgUtf8Small extSimple stEhlo548
    (asciiBytes "FROM:<a@b> SIZE=200") "FROM:<a@b> SIZE=200" "a@b" " SIZE=200"
    [("SIZE", .val "200")] "200"
    (by decide) (by decide) (by decide) (by decide) (by rfl) (by decide)
    (by rfl) (fun _ => Or.inl (by decide)) (fun _ => Or.inl (by decide))
    (by decide) (by decide)).1 (by decide) (by decide) (by decide)
  exact h.trans (by decide)

/-- A state update that touches neither `mailfrom` nor `rcpttos` preserves
the envelope invariant (the two projections are definitionally unchanged). -/
theorem envInvariant_mail_options (st : State) (x : List String)
    (h : envInvariant st) : envInvariant { st with mail_options := x } :=
  fun hr => h hr

/-- Lemma: `smtp_HELO` either leaves the state unchanged or resets the envelope. -/
theorem smtp_HELO_state (cfg : Config) (st : State) (arg : Option Bytes) :
    (smtp_HELO cfg st arg).2 = st ∨ (smtp_HELO cfg st arg).2.rcpttos = [] := by
  unfold smtp_HELO
  repeat' split
  all_goals first
    | exact Or.inl rfl
    | (right; simp [setRsetState, setPostDataState])

/-- Lemma: `smtp_HELO` preserves the envelope invariant. -/
theorem smtp_HELO_inv (cfg : Config) (st : State) (arg : Option Bytes)
    (h : envInvariant st) : envInvariant (smtp_HELO cfg st arg).2 := by
  rcases smtp_HELO_state cfg st arg with hs | hs
  · rw [hs]; exact h
  · intro hr; exact absurd hs hr

/-- Lemma: `smtp_EHLO` either leaves the state unchanged or resets the envelope
(the capability block only touches `command_size_limits`). -/
theorem smtp_EHLO_state (cfg : Config) (st : State) (arg : Option Bytes) :
    (smtp_EHLO cfg st arg).2 = st ∨ (smtp_EHLO cfg st arg).2.rcpttos = [] := by
  unfold smtp_EHLO
  repeat' split
  all_goals first
    | exact Or.inl rfl
    | (right; simp [setRsetState, setPostDataState])

/-- Lemma: `smtp_EHLO` preserves the envelope invariant. -/
theorem smtp_EHLO_inv (cfg : Config) (st : State) (arg : Option Bytes)
    (h : envInvariant st) : envInvariant (smtp_EHLO cfg st arg).2 := by
  rcases smtp_EHLO_state cfg st arg with hs | hs
  · rw [hs]; exact h
  · intro hr; exact absurd hs hr

/-- Lemma: `smtp_RSET` either leaves the state unchanged or resets the envelope. -/
theorem smtp_RSET_state (st : State) (arg : Option Bytes) :
    (smtp_RSET st arg).2 = st ∨ (smtp_RSET st arg).2.rcpttos = [] := by
  unfold smtp_RSET
  split
  · exact Or.inl rfl
  · right; simp [setRsetState, setPostDataState]

/-- Lemma: `smtp_RSET` preserves the envelope invariant. -/
theorem smtp_RSET_inv (st : State) (arg : Option Bytes)
    (h : envInvariant st) : envInvariant (smtp_RSET st arg).2 := by
  rcases smtp_RSET_state st arg with hs | hs
  · rw [hs]; exact h
  · intro hr; exact absurd hs hr

/-- Lemma: `smtp_NOOP` does not change state. -/
theorem smtp_NOOP_inv (st : State) (arg : Option Bytes)
    (h : envInvariant st) : envInvariant (smtp_NOOP st arg).2 := by
  unfold smtp_NOOP
  split <;> exact h

/-- Lemma: `smtp_QUIT` does not change the envelope state. -/
theorem smtp_QUIT_inv (st : State) (arg : Option Bytes)
    (h : envInvariant st) : envInvariant (smtp_QUIT st arg).2 := by
  unfold smtp_QUIT
  split <;> exact h

/-- Lemma: `mailParamsCheck` either returns `st1` unchanged or stores the given
address into `mailfrom`. -/
theorem mailParamsCheck_state (cfg : Config) (st1 : State) (syntaxerr : String)
    (address : String) (p0 : ParamDict) :
    (mailParamsCheck cfg st1 syntaxerr address p0).2 = st1 ∨
    (mailParamsCheck cfg st1 syntaxerr address p0).2 =
      { st1 with mailfrom := some address } := by
  simp only [mailParamsCheck]
  repeat' split
  all_goals first | exact Or.inl rfl | exact Or.inr rfl

/-- Lemma: `mailParamsCheck` preserves the envelope invariant when the address to
be stored is non-empty. -/
theorem mailParamsCheck_inv (cfg : Config) (st1 : State) (syntaxerr : String)
    (address : String) (p0 : ParamDict) (h : envInvariant st1)
    (ha : address ≠ "") :
    envInvariant (mailParamsCheck cfg st1 syntaxerr address p0).2 := by
  rcases mailParamsCheck_state cfg st1 syntaxerr address p0 with hs | hs <;> rw [hs]
  · exact h
  · intro hr
    simp [strTruthy, ha]

/-- Lemma: `smtp_MAIL` preserves the envelope invariant: every failure path leaves
`mailfrom` and `rcpttos` unchanged (possibly updating `mail_options`), and
the parameter stage stores only a non-empty address. -/
theorem smtp_MAIL_inv (cfg : Config) (ext : Ext) (st : State)
    (arg : Option Bytes) (h : envInvariant st) :
    envInvariant (smtp_MAIL cfg ext st arg).2 := by
  simp only [smtp_MAIL]
  repeat' split
  all_goals try exact h
  -- remaining goals: the `mailParamsCheck` branch, with the non-empty
  -- address hypothesis in context
  all_goals
    apply mailParamsCheck_inv _ _ _ _ _ (envInvariant_mail_options st _ h)
  all_goals simp_all

/-- Lemma: `smtp_RCPT`: the state is unchanged, or only `rcpt_options` changed, or
(`mailfrom` being truthy, as the guard checked) an address was appended. -/
theorem smtp_RCPT_state (ext : Ext) (st : State) (arg : Option Bytes) :
    (smtp_RCPT ext st arg).2 = st ∨
    (∃ ropts, (smtp_RCPT ext st arg).2 = { st with rcpt_options := ropts }) ∨
    (strTruthy st.mailfrom = true ∧ ∃ ropts address,
      (smtp_RCPT ext st arg).2 =
        { st with rcpt_options := ropts,
                  rcpttos := st.rcpttos ++ [address] }) := by
  simp only [smtp_RCPT]
  repeat' split
  all_goals try exact Or.inl rfl
  all_goals try exact Or.inr (Or.inl ⟨_, rfl⟩)
  all_goals refine Or.inr (Or.inr ⟨?_, _, _, rfl⟩)
  all_goals simp_all

/-- Lemma: `smtp_RCPT` preserves the envelope invariant. -/
theorem smtp_RCPT_inv (ext : Ext) (st : State) (arg : Option Bytes)
    (h : envInvariant st) : envInvariant (smtp_RCPT ext st arg).2 := by
  rcases smtp_RCPT_state ext st arg with hs | ⟨r, hs⟩ | ⟨hm, r, a, hs⟩ <;> rw [hs]
  · exact h
  · exact fun hr => h hr
  · exact fun _ => hm

/-- Lemma: `smtp_DATA` either leaves the state unchanged (failed preconditions) or
ends in a post-data state with an empty envelope. -/
theorem smtp_DATA_state (cfg : Config) (ext : Ext) (st : State)
    (arg : Option Bytes) (lines : List Bytes) (hstat : Option String) :
    (smtp_DATA cfg ext st arg lines hstat).2.1 = st ∨
    (smtp_DATA cfg ext st arg lines hstat).2.1.rcpttos = [] := by
  simp only [smtp_DATA]
  repeat' split
  all_goals first
    | exact Or.inl rfl
    | (right; simp [setPostDataState])

/-- Lemma: `smtp_DATA` preserves the envelope invariant. -/
theorem smtp_DATA_inv (cfg : Config) (ext : Ext) (st : State)
    (arg : Option Bytes) (lines : List Bytes) (hstat : Option String)
    (h : envInvariant st) :
    envInvariant (smtp_DATA cfg ext st arg lines hstat).2.1 := by
  rcases smtp_DATA_state cfg ext st arg lines hstat with hs | hs
  · rw [hs]; exact h
  · intro hr; exact absurd hs hr

set_option maxHeartbeats 2000000 in
/-- C10: the envelope invariant — `rcpttos` non-empty implies `mailfrom` is
a non-empty address — is preserved by every main-loop step (every command
handler and every error reply path). -/
theorem c10_env_invariant (cfg : Config) (ext : Ext) (st : State)
    (line : Bytes) (dls : List Bytes) (hstat : Option String)
    (h : envInvariant st) :
    envInvariant (stepLine cfg ext st line dls hstat).2 := by
  unfold stepLine
  split
  · exact h
  · exact h
  · exact h
  · exact h
  · exact h
  · repeat' split
    all_goals first
      | exact smtp_HELO_inv _ _ _ h
      | exact smtp_EHLO_inv _ _ _ h
      | exact smtp_NOOP_inv _ _ h
      | exact smtp_QUIT_inv _ _ h
      | exact smtp_MAIL_inv _ _ _ _ h
      | exact smtp_RCPT_inv _ _ _ h
      | exact smtp_RSET_inv _ _ h
      | exact smtp_DATA_inv _ _ _ _ _ _ h
      | exact h

/-- C10 witness: the invariant holds of the initial state and is preserved
by a concrete step (a `NOOP` line). -/
theorem c10_witness :
    envInvariant initState ∧
    envInvariant (stepLine cfgDefault extSimple initState
      [78, 79, 79, 80, 13, 10] [] none).2 :=
  ⟨fun hh => absurd rfl hh,
   c10_env_invariant cfgDefault extSimple initState [78, 79, 79, 80, 13, 10]
     [] none (fun hh => absurd rfl hh)⟩

end Aiosmtpd
